import Mathlib

/-!
Verification of the blogicum blog application's query and permission rules.

The definitions below are a shallow embedding of `src/blogicum/blog/views.py`,
`src/blogicum/blog/mixin.py` and `src/blogicum/blog/forms.py`.  Django ORM
querysets over the `Post` table are modelled as Lean lists of `Post` records;
`timezone.now()` is an explicit `now : Nat` parameter; a viewer is
`Option User`, with `none` standing for Django's `AnonymousUser` (which never
compares equal to any `User` row and whose `username` is the empty string).
`Http404` and uncaught ORM exceptions are modelled as explicit result
constructors.
-/

namespace Blogicum

/-- A row of the auth `User` table: the fields the blog views read. -/
structure User where
  id : Nat
  username : String
deriving DecidableEq, Repr

/-- A row of the blog `Category` table: the fields the blog views read. -/
structure Category where
  id : Nat
  slug : String
  is_published : Bool
deriving DecidableEq, Repr

/-- A row of the blog `Post` table, with its `Category` materialised the way
`select_related('category')` does. -/
structure Post where
  id : Nat
  author : Nat
  category : Category
  pub_date : Nat
  is_published : Bool
  title : String
  text : String
deriving DecidableEq, Repr

/-- A row of the blog `Comment` table. -/
structure Comment where
  id : Nat
  post_id : Nat
  author : Nat
  text : String
deriving DecidableEq, Repr

/-- The relational store the views run against. -/
structure DB where
  posts : List Post
  categories : List Category
  users : List User
  comments : List Comment
deriving DecidableEq, Repr

/-- Django's `request.user.username`: a `User`'s username, or the empty string
for `AnonymousUser`. -/
def viewerUsername : Option User → String
  | some u => u.username
  | none => ""

/-- The comparison `resource.author == request.user`: `AnonymousUser` never
equals a `User` row. -/
def authorMatch (viewer : Option User) (author : Nat) : Bool :=
  match viewer with
  | some u => u.id == author
  | none => false

/-- Descending `pub_date` order: `a` precedes `b` when `b.pub_date ≤ a.pub_date`. -/
def pubDesc (a b : Post) : Prop :=
  b.pub_date ≤ a.pub_date

instance : DecidableRel pubDesc := fun a b =>
  inferInstanceAs (Decidable (b.pub_date ≤ a.pub_date))

instance : IsTotal Post pubDesc :=
  ⟨fun a b => Nat.le_total b.pub_date a.pub_date⟩

instance : IsTrans Post pubDesc :=
  ⟨fun _ _ _ hab hbc => Nat.le_trans hbc hab⟩

/-- Modelled from the spec: `blog/models.py` is not under `src/` (only its
importers are), so the `Post` model's `Meta` options are taken from the spec's
words "Default ordering: descending `pub_date`" — every `Post` queryset that
does not set an explicit `order_by` carries descending-`pub_date` ordering. -/
def defaultOrdering (posts : List Post) : List Post :=
  posts.insertionSort pubDesc

/-- The filter applied by `get_post_object(filter=True)`:
`pub_date__lt=timezone.now(), is_published=True, category__is_published=True`.
Note the strict `__lt` on `pub_date`. -/
def visibleFilter (now : Nat) (p : Post) : Bool :=
  decide (p.pub_date < now) && p.is_published && p.category.is_published

/-- The number of comments on a post: the value the
`annotate(comment_count=Count('comments'))` clause attaches to each row. -/
def comment_count (db : DB) (p : Post) : Nat :=
  (db.comments.filter (fun c => c.post_id == p.id)).length

/-- Embedding of `get_post_object(filter, annotate_sort)` from
`blog/views.py`.  `select_related` only materialises foreign keys and the
`Count` annotation only attaches `comment_count` to each row, so neither
changes which rows are returned; `order_by('-pub_date')` (taken when
`annotate_sort` is true) re-sorts by descending `pub_date`. -/
def get_post_object (db : DB) (now : Nat) (filter annotate_sort : Bool) :
    List Post :=
  let q := defaultOrdering db.posts
  let q := if filter then q.filter (visibleFilter now) else q
  if annotate_sort then q.insertionSort pubDesc else q

/-- The `PostListView` queryset: `get_post_object(filter=True, annotate_sort=True)`.
There is no viewer parameter: the main listing applies the same filter to
every viewer, the author included. -/
def PostListView_queryset (db : DB) (now : Nat) : List Post :=
  get_post_object db now true true

/-- Outcome of `PostsDetailView.get_object`. -/
inductive DetailResult where
  /-- The post is returned and rendered. -/
  | ok (p : Post)
  /-- `raise Http404(...)`: the request ends with a NotFound response. -/
  | http404
  /-- `queryset.get(pk=...)` found no row: `Post.DoesNotExist` propagates
  uncaught (a server error, not a NotFound response). -/
  | doesNotExist
deriving DecidableEq, Repr

/-- Embedding of `PostsDetailView.get_object`: fetch by
`get_post_object().get(pk=post_id)` (no visibility filter; a missing pk raises
`Post.DoesNotExist`, which nothing catches), then raise `Http404` when the
viewer is not the author and the post fails any of `is_published`,
`category.is_published`, `pub_date > now`. -/
def PostsDetailView_get_object (db : DB) (now : Nat) (viewer : Option User)
    (post_id : Nat) : DetailResult :=
  match (get_post_object db now false false).find? (fun p => p.id == post_id) with
  | none => .doesNotExist
  | some post =>
    if !(authorMatch viewer post.author) &&
        (!post.is_published || !post.category.is_published ||
          decide (post.pub_date > now)) then
      .http404
    else
      .ok post

/-- A request-terminating error raised through the framework. -/
inductive HttpError where
  /-- `Http404`, as raised by `get_object_or_404`. -/
  | notFound
deriving DecidableEq, Repr

/-- Embedding of `CategoryListView.get_queryset`: `get_object_or_404(Category,
slug=category_slug)` first (a missing slug raises `Http404`), then the
filtered, annotated, sorted post query restricted to `category__slug`. -/
def CategoryListView_get_queryset (db : DB) (now : Nat)
    (category_slug : String) : Except HttpError (List Post) :=
  match db.categories.find? (fun c => c.slug == category_slug) with
  | none => .error .notFound
  | some _ =>
    .ok ((get_post_object db now true true).filter
      (fun p => p.category.slug == category_slug))

/-- Embedding of `ProfileListView.get_object`:
`get_object_or_404(User, username=username)`. -/
def ProfileListView_get_object (db : DB) (username : String) : Option User :=
  db.users.find? (fun u => u.username == username)

/-- Embedding of `ProfileListView.get_queryset`: when the requesting viewer's
username differs from the target's, `get_post_object(filter=True)` (visibility
filter, default ordering only); otherwise `get_post_object(annotate_sort=True)`
(no visibility filter); then restrict to the target author's rows. -/
def ProfileListView_get_queryset (db : DB) (now : Nat) (viewer : Option User)
    (username : String) : Except HttpError (List Post) :=
  match ProfileListView_get_object db username with
  | none => .error .notFound
  | some target =>
    let query :=
      if viewerUsername viewer ≠ target.username then
        get_post_object db now true false
      else
        get_post_object db now false true
    .ok (query.filter (fun p => p.author == target.id))

/-- Embedding of `ProfileListView.get_context_data`'s profile lookup:
`get_object_or_404(User, username=self.request.user.username)` — the lookup
key is the requesting viewer's own username, not the username in the URL. -/
def ProfileListView_context_profile (db : DB) (viewer : Option User) :
    Except HttpError User :=
  match db.users.find? (fun u => u.username == viewerUsername viewer) with
  | none => .error .notFound
  | some u => .ok u

/-- The data a bound `BlogForm` carries.  `class Meta: exclude = ('author',)`
drops the `author` model field from the form, so an `author` value present in
the raw POST data (`supplied_author`) is never bound to the instance. -/
structure BlogFormData where
  title : String
  text : String
  pub_date : Nat
  category : Category
  is_published : Bool
  supplied_author : Option Nat
deriving DecidableEq, Repr

/-- The data a bound `CommentForm` carries.  `fields = ('text',)` binds only
`text`; an `author` value in the raw POST data (`supplied_author`) is ignored. -/
structure CommentFormData where
  text : String
  supplied_author : Option Nat
deriving DecidableEq, Repr

/-- Saving a bound `BlogForm` over an existing `Post` instance: the form's
fields overwrite the instance's; `author` is not a form field and keeps the
instance's value. -/
def applyBlogForm (form : BlogFormData) (p : Post) : Post :=
  { p with
    title := form.title
    text := form.text
    pub_date := form.pub_date
    category := form.category
    is_published := form.is_published }

/-- Outcome of a view's `dispatch`. -/
inductive DispatchResult where
  /-- `redirect('blog:post_detail', post_id=...)`. -/
  | redirect (post_id : Nat)
  /-- `raise Http404(...)` (also a missing pk in `get_object`). -/
  | http404
  /-- The permission gate passed and the framework's update/delete flow ran. -/
  | proceeded
deriving DecidableEq, Repr

/-- Embedding of `PostUpdateView.dispatch`: `get_object()` (a missing pk
raises `Http404`), then redirect to the post's detail page when the viewer is
not the author; otherwise `super().dispatch` runs the update flow, saving the
bound `BlogForm` into the row.  The class defines `dispatch` itself, so this
check runs before `LoginRequiredMixin`: an anonymous viewer is redirected to
the detail page, not to login. -/
def PostUpdateView_dispatch (db : DB) (viewer : Option User) (post_id : Nat)
    (form : BlogFormData) : DispatchResult × DB :=
  match db.posts.find? (fun p => p.id == post_id) with
  | none => (.http404, db)
  | some post =>
    if !(authorMatch viewer post.author) then
      (.redirect post.id, db)
    else
      (.proceeded,
        { db with
          posts := db.posts.map
            (fun p => if p.id == post_id then applyBlogForm form p else p) })

/-- Embedding of `PostDeleteView.dispatch`: `get_object()`, then
`raise Http404(...)` when the viewer is not the author; otherwise the delete
flow removes the row (comments cascade with the post's foreign key). -/
def PostDeleteView_dispatch (db : DB) (viewer : Option User) (post_id : Nat) :
    DispatchResult × DB :=
  match db.posts.find? (fun p => p.id == post_id) with
  | none => (.http404, db)
  | some post =>
    if !(authorMatch viewer post.author) then
      (.http404, db)
    else
      (.proceeded,
        { db with
          posts := db.posts.filter (fun p => !(p.id == post_id))
          comments := db.comments.filter (fun c => !(c.post_id == post_id)) })

/-- Embedding of `CommentMixin.get_object`:
`get_object_or_404(Comment, pk=comment_id, post_id=post_id)`. -/
def CommentMixin_get_object (db : DB) (comment_id post_id : Nat) :
    Option Comment :=
  db.comments.find? (fun c => c.id == comment_id && c.post_id == post_id)

/-- Embedding of `CommentMixin.dispatch` as used by `CommentUpdateView`:
`get_object()` (a missing pair raises `Http404`), redirect to the post's
detail page when the viewer is not the comment's author, otherwise the update
flow saves the bound `CommentForm`'s `text` into the row. -/
def CommentUpdateView_dispatch (db : DB) (viewer : Option User)
    (comment_id post_id : Nat) (form : CommentFormData) : DispatchResult × DB :=
  match CommentMixin_get_object db comment_id post_id with
  | none => (.http404, db)
  | some comment =>
    if !(authorMatch viewer comment.author) then
      (.redirect comment.post_id, db)
    else
      (.proceeded,
        { db with
          comments := db.comments.map
            (fun c => if c.id == comment_id then { c with text := form.text } else c) })

/-- Embedding of `CommentMixin.dispatch` as used by `CommentDeleteView`:
same gate, with the delete flow removing the row on success. -/
def CommentDeleteView_dispatch (db : DB) (viewer : Option User)
    (comment_id post_id : Nat) : DispatchResult × DB :=
  match CommentMixin_get_object db comment_id post_id with
  | none => (.http404, db)
  | some comment =>
    if !(authorMatch viewer comment.author) then
      (.redirect comment.post_id, db)
    else
      (.proceeded,
        { db with
          comments := db.comments.filter (fun c => !(c.id == comment_id)) })

/-- Embedding of `PostCreateView.form_valid`: the view is behind
`LoginRequiredMixin`, so the viewer is an authenticated `User`;
`form.instance.author = self.request.user` stamps the author before the save,
and `BlogForm` has no `author` field, so `supplied_author` never reaches the
instance. -/
def PostCreateView_form_valid (viewer : User) (new_id : Nat)
    (form : BlogFormData) : Post :=
  { id := new_id
    author := viewer.id
    category := form.category
    pub_date := form.pub_date
    is_published := form.is_published
    title := form.title
    text := form.text }

/-- Embedding of `CommentCreateView.form_valid`:
`form.instance.author = self.request.user`, then
`form.instance.post = get_object_or_404(Post, pk=post_id)` (a missing post
raises `Http404`), then the save; `CommentForm` binds only `text`. -/
def CommentCreateView_form_valid (db : DB) (viewer : User) (new_id post_id : Nat)
    (form : CommentFormData) : Except HttpError Comment :=
  match db.posts.find? (fun p => p.id == post_id) with
  | none => .error .notFound
  | some post =>
    .ok { id := new_id, post_id := post.id, author := viewer.id, text := form.text }

/-! Concrete fixtures used by counterexamples and witnesses. -/

/-- A published category. -/
def natureCategory : Category := ⟨1, "nature", true⟩

/-- A registered user who authors the fixture posts. -/
def alice : User := ⟨1, "alice"⟩

/-- A registered user who authors nothing. -/
def bob : User := ⟨2, "bob"⟩

/-- A published post whose `pub_date` is exactly 5. -/
def boundaryPost : Post := ⟨1, 1, natureCategory, 5, true, "boundary", "body"⟩

/-- An unpublished (draft) post by alice. -/
def draftPost : Post := ⟨2, 1, natureCategory, 5, false, "draft", "body"⟩

/-- A published post by alice whose `pub_date` is in the future at `now = 10`. -/
def futurePost : Post := ⟨3, 1, natureCategory, 20, true, "future", "body"⟩

/-- A comment by alice on `boundaryPost`. -/
def aliceComment : Comment := ⟨1, 1, 1, "hi"⟩

/-- The fixture database. -/
def sampleDB : DB :=
  ⟨[boundaryPost, draftPost, futurePost], [natureCategory], [alice, bob],
    [aliceComment]⟩

/-! Theorems settling the claims. -/

/-- Unfolding lemma: the fully filtered, annotated, sorted post query. -/
theorem get_post_object_tt (db : DB) (now : Nat) :
    get_post_object db now true true =
      ((defaultOrdering db.posts).filter (visibleFilter now)).insertionSort
        pubDesc := rfl

/-- Unfolding lemma: the filtered query without the explicit `order_by`. -/
theorem get_post_object_tf (db : DB) (now : Nat) :
    get_post_object db now true false =
      (defaultOrdering db.posts).filter (visibleFilter now) := rfl

/-- Unfolding lemma: the unfiltered query with the explicit `order_by`. -/
theorem get_post_object_ft (db : DB) (now : Nat) :
    get_post_object db now false true =
      (defaultOrdering db.posts).insertionSort pubDesc := rfl

/-- Unfolding lemma: the bare query. -/
theorem get_post_object_ff (db : DB) (now : Nat) :
    get_post_object db now false false = defaultOrdering db.posts := rfl

/-- C1 (claim as stated is false): at `now = 5`, `boundaryPost` has
`is_published`, a published category and `pub_date ≤ now`, yet the main
listing's visibility query omits it, because `get_post_object` filters with
the strict `pub_date__lt=timezone.now()`. -/
theorem C1_counterexample :
    boundaryPost ∈ sampleDB.posts ∧ boundaryPost.is_published = true ∧
      boundaryPost.category.is_published = true ∧ boundaryPost.pub_date ≤ 5 ∧
      boundaryPost ∉ PostListView_queryset sampleDB 5 := by
  decide

/-- C1 (amended): a Post appears in the visibility query's result (the main
listing) iff it is in the database, its `is_published` flag is true, its
Category's `is_published` flag is true, and its `pub_date` is strictly less
than the current time; the query takes no viewer parameter, so this holds for
every viewer. -/
theorem C1_visibility_query (db : DB) (now : Nat) (p : Post) :
    p ∈ PostListView_queryset db now ↔
      p ∈ db.posts ∧ p.is_published = true ∧ p.category.is_published = true ∧
        p.pub_date < now := by
  simp only [PostListView_queryset, get_post_object, defaultOrdering,
    if_true, List.mem_insertionSort, List.mem_filter, visibleFilter,
    Bool.and_eq_true, decide_eq_true_eq]
  tauto

/-- C2 (claim as stated is false): `draftPost` is alice's own post, yet the
main listing omits it even for alice, because `PostListView`'s queryset is
viewer-independent and filters on `is_published`. -/
theorem C2_counterexample :
    draftPost ∈ sampleDB.posts ∧ draftPost.author = alice.id ∧
      draftPost ∉ PostListView_queryset sampleDB 10 := by
  decide

/-- C2 (amended): the Post's author always sees their own Post in the detail
view, regardless of `is_published`, `category.is_published` and `pub_date`;
the main and category listings, by contrast, apply the visibility filter to
every viewer, the author included. -/
theorem C2_author_sees_own_detail (db : DB) (now : Nat) (viewer : User)
    (p : Post) (post_id : Nat)
    (hfind : (get_post_object db now false false).find?
      (fun q => q.id == post_id) = some p)
    (hauth : p.author = viewer.id) :
    PostsDetailView_get_object db now (some viewer) post_id = .ok p := by
  simp [PostsDetailView_get_object, hfind, authorMatch, hauth]

/-- C2 witness: alice retrieves her own unpublished `draftPost` through the
detail view. -/
theorem C2_witness :
    PostsDetailView_get_object sampleDB 10 (some alice) 2 = .ok draftPost :=
  C2_author_sees_own_detail sampleDB 10 alice draftPost 2 (by decide) rfl

/-- C3: a Post with `is_published = false` never reaches an anonymous viewer:
it is absent from the main listing, absent from every successful category
listing, and its detail request raises `Http404`. -/
theorem C3_unpublished_hidden_from_anonymous (db : DB) (now : Nat) (p : Post)
    (hp : p.is_published = false) :
    p ∉ PostListView_queryset db now ∧
      (∀ slug r, CategoryListView_get_queryset db now slug = .ok r → p ∉ r) ∧
      (∀ post_id, (get_post_object db now false false).find?
          (fun q => q.id == post_id) = some p →
        PostsDetailView_get_object db now none post_id = .http404) := by
  refine ⟨?_, ?_, ?_⟩
  · simp [PostListView_queryset, get_post_object, defaultOrdering,
      visibleFilter, List.mem_filter, hp]
  · intro slug r hr hmem
    unfold CategoryListView_get_queryset at hr
    cases hfind : db.categories.find? (fun c => c.slug == slug) with
    | none => rw [hfind] at hr; exact Except.noConfusion hr
    | some c =>
      rw [hfind] at hr
      injection hr with hr
      subst hr
      rw [get_post_object_tt] at hmem
      have hvis := (List.mem_filter.mp
        ((List.mem_insertionSort _).mp (List.mem_filter.mp hmem).1)).2
      simp [visibleFilter, hp] at hvis
  · intro post_id hfind
    simp [PostsDetailView_get_object, hfind, authorMatch, hp]

/-- C3 witness: the anonymous viewer never receives alice's `draftPost`. -/
theorem C3_witness :
    draftPost ∉ PostListView_queryset sampleDB 10 ∧
      (∀ slug r, CategoryListView_get_queryset sampleDB 10 slug = .ok r →
        draftPost ∉ r) ∧
      (∀ post_id, (get_post_object sampleDB 10 false false).find?
          (fun q => q.id == post_id) = some draftPost →
        PostsDetailView_get_object sampleDB 10 none post_id = .http404) :=
  C3_unpublished_hidden_from_anonymous sampleDB 10 draftPost rfl

/-- C4 (claim as stated is false): at `now = 5`, `boundaryPost` is alice's,
satisfies `is_published`, a published category and `pub_date ≤ now` ("not in
the future"), yet the anonymous (non-owner) profile listing for alice is
empty: the non-owner branch filters with the strict `pub_date__lt`. -/
theorem C4_counterexample :
    boundaryPost.author = alice.id ∧ boundaryPost.is_published = true ∧
      boundaryPost.category.is_published = true ∧ boundaryPost.pub_date ≤ 5 ∧
      viewerUsername none ≠ alice.username ∧
      ProfileListView_get_queryset sampleDB 5 none "alice" = .ok [] := by
  exact ⟨rfl, rfl, rfl, by decide, by decide, rfl⟩

/-- C4 (amended): the profile listing for a target username contains exactly
the target's Posts, restricted by the visibility rule (`is_published`,
`category.is_published`, `pub_date` strictly in the past) when the viewer's
username differs from the target's, and unfiltered (drafts and future-dated
posts included) when the viewer is the owner. -/
theorem C4_profile_listing (db : DB) (now : Nat) (viewer : Option User)
    (username : String) (target : User) (r : List Post)
    (htarget : ProfileListView_get_object db username = some target)
    (hr : ProfileListView_get_queryset db now viewer username = .ok r)
    (p : Post) :
    p ∈ r ↔
      p ∈ db.posts ∧ p.author = target.id ∧
        (viewerUsername viewer ≠ target.username →
          p.is_published = true ∧ p.category.is_published = true ∧
            p.pub_date < now) := by
  simp only [ProfileListView_get_queryset, htarget] at hr
  by_cases hown : viewerUsername viewer ≠ target.username
  · rw [if_pos hown] at hr
    injection hr with hr
    subst hr
    simp only [get_post_object_tf, defaultOrdering, List.mem_filter,
      List.mem_insertionSort, visibleFilter, Bool.and_eq_true,
      decide_eq_true_eq, beq_iff_eq]
    constructor
    · rintro ⟨⟨hmem, hvis⟩, hauth⟩
      exact ⟨hmem, hauth, fun _ => ⟨hvis.1.2, hvis.2, hvis.1.1⟩⟩
    · rintro ⟨hmem, hauth, hvis⟩
      have h := hvis hown
      exact ⟨⟨hmem, ⟨h.2.2, h.1⟩, h.2.1⟩, hauth⟩
  · rw [if_neg hown] at hr
    injection hr with hr
    subst hr
    simp only [get_post_object_ft, defaultOrdering, List.mem_filter,
      List.mem_insertionSort, beq_iff_eq]
    constructor
    · rintro ⟨hmem, hauth⟩
      exact ⟨hmem, hauth, fun h => absurd h hown⟩
    · rintro ⟨hmem, hauth, _⟩
      exact ⟨hmem, hauth⟩

/-- C4 witness: at `now = 10`, the anonymous profile listing for alice is
exactly `[boundaryPost]`, and the characterization applies to her future-dated
post, which that listing omits. -/
theorem C4_witness :
    futurePost ∈ [boundaryPost] ↔
      futurePost ∈ sampleDB.posts ∧ futurePost.author = alice.id ∧
        (viewerUsername none ≠ alice.username →
          futurePost.is_published = true ∧
            futurePost.category.is_published = true ∧
            futurePost.pub_date < 10) :=
  C4_profile_listing sampleDB 10 none "alice" alice [boundaryPost]
    (by decide) rfl futurePost

/-- C5: when the viewer is not the author of the targeted Post or Comment,
every edit and delete dispatch leaves the database unchanged and never
reaches the update/delete flow: the permission check intercepts first. -/
theorem C5_non_author_never_mutates (db : DB) (viewer : Option User)
    (post_id comment_id : Nat) (bform : BlogFormData) (cform : CommentFormData)
    (hp : ∀ p ∈ db.posts, p.id = post_id → authorMatch viewer p.author = false)
    (hc : ∀ c ∈ db.comments, c.id = comment_id → c.post_id = post_id →
      authorMatch viewer c.author = false) :
    (PostUpdateView_dispatch db viewer post_id bform).2 = db ∧
      (PostUpdateView_dispatch db viewer post_id bform).1 ≠ .proceeded ∧
      (PostDeleteView_dispatch db viewer post_id).2 = db ∧
      (PostDeleteView_dispatch db viewer post_id).1 ≠ .proceeded ∧
      (CommentUpdateView_dispatch db viewer comment_id post_id cform).2 = db ∧
      (CommentUpdateView_dispatch db viewer comment_id post_id cform).1
        ≠ .proceeded ∧
      (CommentDeleteView_dispatch db viewer comment_id post_id).2 = db ∧
      (CommentDeleteView_dispatch db viewer comment_id post_id).1
        ≠ .proceeded := by
  have hpost : ∀ p, db.posts.find? (fun q => q.id == post_id) = some p →
      authorMatch viewer p.author = false := by
    intro p hfind
    exact hp p (List.mem_of_find?_eq_some hfind)
      (by simpa using List.find?_some hfind)
  have hcom : ∀ c, CommentMixin_get_object db comment_id post_id = some c →
      authorMatch viewer c.author = false := by
    intro c hfind
    have hprop := List.find?_some hfind
    simp only [Bool.and_eq_true, beq_iff_eq] at hprop
    exact hc c (List.mem_of_find?_eq_some hfind) hprop.1 hprop.2
  refine ⟨?_, ?_, ?_, ?_, ?_, ?_, ?_, ?_⟩ <;>
    first
    | · unfold PostUpdateView_dispatch
        cases hfind : db.posts.find? (fun q => q.id == post_id) with
        | none => simp
        | some p => simp [hpost p hfind]
    | · unfold PostDeleteView_dispatch
        cases hfind : db.posts.find? (fun q => q.id == post_id) with
        | none => simp
        | some p => simp [hpost p hfind]
    | · unfold CommentUpdateView_dispatch
        cases hfind : CommentMixin_get_object db comment_id post_id with
        | none => simp
        | some c => simp [hcom c hfind]
    | · unfold CommentDeleteView_dispatch
        cases hfind : CommentMixin_get_object db comment_id post_id with
        | none => simp
        | some c => simp [hcom c hfind]

/-- C5 witness: bob's edit and delete requests against alice's post 1 and
alice's comment 1 leave the fixture database untouched. -/
theorem C5_witness :
    (PostUpdateView_dispatch sampleDB (some bob) 1
        ⟨"t", "x", 1, natureCategory, true, some 2⟩).2 = sampleDB ∧
      (PostUpdateView_dispatch sampleDB (some bob) 1
        ⟨"t", "x", 1, natureCategory, true, some 2⟩).1 ≠ .proceeded ∧
      (PostDeleteView_dispatch sampleDB (some bob) 1).2 = sampleDB ∧
      (PostDeleteView_dispatch sampleDB (some bob) 1).1 ≠ .proceeded ∧
      (CommentUpdateView_dispatch sampleDB (some bob) 1 1 ⟨"t", some 2⟩).2
        = sampleDB ∧
      (CommentUpdateView_dispatch sampleDB (some bob) 1 1 ⟨"t", some 2⟩).1
        ≠ .proceeded ∧
      (CommentDeleteView_dispatch sampleDB (some bob) 1 1).2 = sampleDB ∧
      (CommentDeleteView_dispatch sampleDB (some bob) 1 1).1 ≠ .proceeded :=
  C5_non_author_never_mutates sampleDB (some bob) 1 1
    ⟨"t", "x", 1, natureCategory, true, some 2⟩ ⟨"t", some 2⟩
    (by decide) (by decide)

/-- C6: creation stamps `author` to the submitting viewer, and two
submissions that differ only in the supplied author value produce the same
stored Post, respectively the same stored Comment. -/
theorem C6_author_stamped (db : DB) (viewer : User) (new_id post_id : Nat)
    (f1 f2 : BlogFormData) (g1 g2 : CommentFormData)
    (hft : f1.title = f2.title) (hfx : f1.text = f2.text)
    (hfp : f1.pub_date = f2.pub_date) (hfc : f1.category = f2.category)
    (hfi : f1.is_published = f2.is_published) (hgt : g1.text = g2.text) :
    (PostCreateView_form_valid viewer new_id f1).author = viewer.id ∧
      PostCreateView_form_valid viewer new_id f1 =
        PostCreateView_form_valid viewer new_id f2 ∧
      (∀ c, CommentCreateView_form_valid db viewer new_id post_id g1 = .ok c →
        c.author = viewer.id) ∧
      CommentCreateView_form_valid db viewer new_id post_id g1 =
        CommentCreateView_form_valid db viewer new_id post_id g2 := by
  refine ⟨rfl, ?_, ?_, ?_⟩
  · simp [PostCreateView_form_valid, hft, hfx, hfp, hfc, hfi]
  · intro c hok
    unfold CommentCreateView_form_valid at hok
    cases hfind : db.posts.find? (fun p => p.id == post_id) with
    | none => rw [hfind] at hok; exact Except.noConfusion hok
    | some post =>
      rw [hfind] at hok
      injection hok with hok
      subst hok
      rfl
  · unfold CommentCreateView_form_valid
    cases db.posts.find? (fun p => p.id == post_id) with
    | none => rfl
    | some post => simp [hgt]

/-- C6 witness: two comment submissions by alice on post 1 that differ only
in the supplied author value, and two post submissions likewise, create
identical resources authored by alice. -/
theorem C6_witness :
    (PostCreateView_form_valid alice 9
        ⟨"t", "x", 3, natureCategory, true, some 2⟩).author = alice.id ∧
      PostCreateView_form_valid alice 9
          ⟨"t", "x", 3, natureCategory, true, some 2⟩ =
        PostCreateView_form_valid alice 9
          ⟨"t", "x", 3, natureCategory, true, none⟩ ∧
      (∀ c, CommentCreateView_form_valid sampleDB alice 9 1 ⟨"hey", some 2⟩
          = .ok c → c.author = alice.id) ∧
      CommentCreateView_form_valid sampleDB alice 9 1 ⟨"hey", some 2⟩ =
        CommentCreateView_form_valid sampleDB alice 9 1 ⟨"hey", none⟩ :=
  C6_author_stamped sampleDB alice 9 1
    ⟨"t", "x", 3, natureCategory, true, some 2⟩
    ⟨"t", "x", 3, natureCategory, true, none⟩
    ⟨"hey", some 2⟩ ⟨"hey", none⟩ rfl rfl rfl rfl rfl rfl

/-- C7: when no Category carries the requested slug, the category listing
raises `Http404` (NotFound); it never returns a successful listing. -/
theorem C7_missing_category_not_found (db : DB) (now : Nat) (slug : String)
    (h : ∀ c ∈ db.categories, c.slug ≠ slug) :
    CategoryListView_get_queryset db now slug = .error .notFound := by
  unfold CategoryListView_get_queryset
  cases hfind : db.categories.find? (fun c => c.slug == slug) with
  | none => rfl
  | some c =>
    exact absurd (by simpa using List.find?_some hfind)
      (h c (List.mem_of_find?_eq_some hfind))

/-- C7 witness: the slug "nope" matches no fixture category and the listing
request ends in NotFound. -/
theorem C7_witness :
    CategoryListView_get_queryset sampleDB 10 "nope" = .error .notFound :=
  C7_missing_category_not_found sampleDB 10 "nope" (by decide)

/-- C8 (the code contradicts the claim at the post detail view): requesting
the detail page of a non-existent post id makes `queryset.get(pk=post_id)`
raise `Post.DoesNotExist`, which nothing catches — a server error, not the
NotFound condition — while the other missing-resource paths (category slug,
profile username, comment id) do raise `Http404`. -/
theorem C8_missing_post_detail_uncaught :
    PostsDetailView_get_object sampleDB 10 none 99 = .doesNotExist ∧
      DetailResult.doesNotExist ≠ DetailResult.http404 ∧
      CategoryListView_get_queryset sampleDB 10 "nope" = .error .notFound ∧
      ProfileListView_get_queryset sampleDB 10 none "carol"
        = .error .notFound ∧
      CommentUpdateView_dispatch sampleDB (some alice) 99 1 ⟨"t", none⟩
        = (.http404, sampleDB) := by
  exact ⟨rfl, by decide, rfl, rfl, rfl⟩

/-- C9: every post listing — the main listing, every successful category
listing, and every successful profile listing (owner or not) — is sorted by
descending `pub_date`. -/
theorem C9_listings_sorted (db : DB) (now : Nat) (viewer : Option User)
    (slug username : String) :
    (PostListView_queryset db now).Sorted pubDesc ∧
      (∀ r, CategoryListView_get_queryset db now slug = .ok r →
        r.Sorted pubDesc) ∧
      (∀ r, ProfileListView_get_queryset db now viewer username = .ok r →
        r.Sorted pubDesc) := by
  refine ⟨?_, ?_, ?_⟩
  · exact List.sorted_insertionSort pubDesc _
  · intro r hr
    unfold CategoryListView_get_queryset at hr
    cases hfind : db.categories.find? (fun c => c.slug == slug) with
    | none => rw [hfind] at hr; exact Except.noConfusion hr
    | some c =>
      rw [hfind] at hr
      injection hr with hr
      subst hr
      exact (List.sorted_insertionSort pubDesc _).filter _
  · intro r hr
    simp only [ProfileListView_get_queryset] at hr
    cases hfind : ProfileListView_get_object db username with
    | none => rw [hfind] at hr; exact Except.noConfusion hr
    | some target =>
      simp only [hfind] at hr
      by_cases hown : viewerUsername viewer ≠ target.username
      · rw [if_pos hown] at hr
        injection hr with hr
        subst hr
        rw [get_post_object_tf]
        exact ((List.sorted_insertionSort pubDesc _).filter _).filter _
      · rw [if_neg hown] at hr
        injection hr with hr
        subst hr
        rw [get_post_object_ft]
        exact (List.sorted_insertionSort pubDesc _).filter _

/-- C9 witness: the fixture listings at `now = 10` are sorted by descending
`pub_date`. -/
theorem C9_witness :
    (PostListView_queryset sampleDB 10).Sorted pubDesc ∧
      (∀ r, CategoryListView_get_queryset sampleDB 10 "nature" = .ok r →
        r.Sorted pubDesc) ∧
      (∀ r, ProfileListView_get_queryset sampleDB 10 (some alice) "alice"
          = .ok r → r.Sorted pubDesc) :=
  C9_listings_sorted sampleDB 10 (some alice) "nature" "alice"

/-- C10: the profile placed in the response context is looked up by the
requesting viewer's own username (whatever target the URL named): a returned
profile always carries the viewer's username, and an anonymous request ends
in NotFound whenever no stored user has the empty username — even when the
URL's target user exists. -/
theorem C10_profile_context_uses_viewer (db : DB) (viewer : Option User)
    (husers : ∀ u ∈ db.users, u.username ≠ "") :
    (∀ u, ProfileListView_context_profile db viewer = .ok u →
      u.username = viewerUsername viewer) ∧
      (viewer = none →
        ProfileListView_context_profile db viewer = .error .notFound) := by
  constructor
  · intro u hok
    unfold ProfileListView_context_profile at hok
    cases hfind : db.users.find? (fun v => v.username == viewerUsername viewer) with
    | none => rw [hfind] at hok; exact Except.noConfusion hok
    | some v =>
      rw [hfind] at hok
      injection hok with hok
      subst hok
      simpa using List.find?_some hfind
  · intro hanon
    subst hanon
    unfold ProfileListView_context_profile
    cases hfind : db.users.find? (fun v => v.username == viewerUsername none) with
    | none => rfl
    | some v =>
      have : v.username = "" := by simpa [viewerUsername] using List.find?_some hfind
      exact absurd this (husers v (List.mem_of_find?_eq_some hfind))

/-- C10 witness: the fixture users all have nonempty usernames, so an
anonymous request for alice's profile page ends in NotFound although alice
exists. -/
theorem C10_witness :
    (∀ u, ProfileListView_context_profile sampleDB none = .ok u →
      u.username = viewerUsername none) ∧
      ((none : Option User) = none →
        ProfileListView_context_profile sampleDB none = .error .notFound) :=
  C10_profile_context_uses_viewer sampleDB none (by decide)

end Blogicum
